import Mathlib

/-!
Shallow embedding of the tool-orchestration and diagnostic-translation
pipeline of the `vscode-ddev-phpmd` extension.

Pure fragments of the TypeScript source are translated directly into Lean
functions.  External effects (spawning `ddev exec`, the filesystem marker
check, VS Code's JSON parser) are represented by explicit inputs describing
the observed outcome of the effect, so that the control flow around them can
be stated and proved faithfully.
-/

namespace DdevPhpmd

/-- VS Code's `DiagnosticSeverity` enum: Error = 0, Warning = 1,
Information = 2, Hint = 3. -/
inductive DiagnosticSeverity where
  | Error
  | Warning
  | Information
  | Hint
deriving DecidableEq, Repr

/-- The numeric value of each enum member, as declared by VS Code. -/
def DiagnosticSeverity.value : DiagnosticSeverity → Nat
  | .Error => 0
  | .Warning => 1
  | .Information => 2
  | .Hint => 3

/-- `DiagnosticUtils.getSeverity` (src/utils/ddev-utils.ts): the switch on the
PHPMD priority, with `case 2: case 3:` fallthrough to Warning, `case 4: case 5:`
fallthrough to Information, and a `default:` of Warning. -/
def getSeverity (priority : Int) : DiagnosticSeverity :=
  if priority = 1 then .Error
  else if priority = 2 then .Warning
  else if priority = 3 then .Warning
  else if priority = 4 then .Information
  else if priority = 5 then .Information
  else .Warning

/-- `DiagnosticUtils.shouldReportSeverity` (src/utils/ddev-utils.ts): a switch
on the `minSeverity` setting string; `'warning'` compares the enum values with
`<=`, and the `default:` branch returns true. -/
def shouldReportSeverity (severity : DiagnosticSeverity) (minSeverity : String) : Bool :=
  match minSeverity with
  | "error" => severity == .Error
  | "warning" => severity.value ≤ DiagnosticSeverity.Warning.value
  | "info" => true
  | _ => true

/-- One PHPMD violation, as in `src/models/phpmd-result.ts`. -/
structure PhpmdViolation where
  beginLine : Int
  endLine : Int
  beginColumn : Int
  endColumn : Int
  description : String
  rule : String
  ruleSet : String
  priority : Int
  externalInfoUrl : Option String
deriving DecidableEq, Repr

/-- One file entry of the PHPMD JSON output. -/
structure PhpmdFileResult where
  file : String
  violations : List PhpmdViolation
deriving DecidableEq, Repr

/-- The parsed PHPMD JSON output. -/
structure PhpmdResult where
  files : List PhpmdFileResult
deriving DecidableEq, Repr

/-- A VS Code position (line, character). -/
structure Position where
  line : Int
  character : Int
deriving DecidableEq, Repr

/-- A VS Code range from `start` to `stop` (the source's `end`). -/
structure Range where
  start : Position
  stop : Position
deriving DecidableEq, Repr

/-- JavaScript's `Number.MAX_VALUE`, the end column used by
`createDiagnostic` to span the whole line. -/
def numberMaxValue : Int := (2 ^ 53 - 1) * 2 ^ 971

/-- A diagnostic's `code` field: either the bare rule name or the rule name
paired with the documentation URL. -/
inductive DiagnosticCode where
  | plain (value : String)
  | withTarget (value : String) (target : String)
deriving DecidableEq, Repr

/-- The fields of a VS Code diagnostic that `createDiagnostic` populates. -/
structure Diagnostic where
  range : Range
  message : String
  severity : DiagnosticSeverity
  source : String
  code : DiagnosticCode
deriving DecidableEq, Repr

/-- `DiagnosticUtils.createDiagnostic` (src/utils/ddev-utils.ts): zero-based
line `beginLine - 1`, range from column 0 to `Number.MAX_VALUE` on that line,
message `"description (rule)"`, source `'phpmd'`, and the rule as code with
the documentation URL attached when present. -/
def createDiagnostic (violation : PhpmdViolation) : Diagnostic :=
  let lineNum := violation.beginLine - 1
  let range : Range := ⟨⟨lineNum, 0⟩, ⟨lineNum, numberMaxValue⟩⟩
  let severity := getSeverity violation.priority
  { range := range
    message := violation.description ++ " (" ++ violation.rule ++ ")"
    severity := severity
    source := "phpmd"
    code :=
      match violation.externalInfoUrl with
      | some url => .withTarget violation.rule url
      | none => .plain violation.rule }

/-- The violation-to-diagnostic loop of `PhpmdService.processPhpmdOutput`
(src/services/phpmd-service.ts), after `JSON.parse` has succeeded: iterate the
files, then each file's violations, pushing a diagnostic for each violation
whose mapped severity passes the minimum-severity filter. -/
def processPhpmdOutput (result : PhpmdResult) (minSeverity : String) : List Diagnostic :=
  if result.files.isEmpty then []
  else
    result.files.foldl
      (fun diagnostics file =>
        file.violations.foldl
          (fun diagnostics violation =>
            let severity := getSeverity violation.priority
            if shouldReportSeverity severity minSeverity then
              diagnostics ++ [createDiagnostic violation]
            else
              diagnostics)
          diagnostics)
      []

/-- The error object thrown by `execSync`: the process's captured stdout and
stderr and its exit information. -/
structure ExecError where
  stdout : String
  stderr : String
  exitCode : Int
deriving DecidableEq, Repr

/-- The observed outcome of spawning `ddev exec <command>`: either a clean
exit with its stdout, or a thrown `ExecError`. -/
inductive ProcResult where
  | ok (stdout : String)
  | err (e : ExecError)
deriving DecidableEq, Repr

/-- `DdevUtils.execDdev` (src/shared/utils/ddev-utils.ts): return the stdout
of `ddev exec <command>`; if `execSync` throws, return `execError.stdout` when
it is truthy (a non-empty string), otherwise rethrow the error. -/
def execDdev (spawned : ProcResult) : Except ExecError String :=
  match spawned with
  | .ok stdout => .ok stdout
  | .err execError =>
      if execError.stdout ≠ "" then .ok execError.stdout
      else .error execError

/-- The stdout the spawned process produced, whether or not it exited
cleanly. -/
def ProcResult.stdoutOf : ProcResult → String
  | .ok stdout => stdout
  | .err e => e.stdout

/-- The shell command and working directory `execDdev` hands to `execSync`:
`ddev exec <command>` with `cwd: workspacePath`. -/
structure SpawnRequest where
  shellCommand : String
  cwd : String
deriving DecidableEq, Repr

/-- The `execSync` call site inside `DdevUtils.execDdev`: prefix the command
with `ddev exec ` and run it in the workspace directory. -/
def execDdevRequest (command : String) (workspacePath : String) : SpawnRequest :=
  ⟨"ddev exec " ++ command, workspacePath⟩

/-- Whether `pat` occurs as a contiguous sublist of the second list. -/
def listContainsSub (pat : List Char) : List Char → Bool
  | [] => pat.isPrefixOf []
  | c :: rest => pat.isPrefixOf (c :: rest) || listContainsSub pat rest

/-- JavaScript's `String.prototype.includes`: the pattern occurs somewhere in
the string (the empty pattern is always contained). -/
def jsIncludes (s pattern : String) : Bool :=
  listContainsSub pattern.data s.data

/-- The longest prefix of the list before the first occurrence of `pat`. -/
def listTakeUntilSub (pat : List Char) : List Char → List Char
  | [] => []
  | c :: rest =>
      if pat.isPrefixOf (c :: rest) then []
      else c :: listTakeUntilSub pat rest

/-- JavaScript's `message.split('\n\n')[0]`: the part before the first double
newline, or the whole string when none occurs. -/
def truncAtDoubleNewline (message : String) : String :=
  ⟨listTakeUntilSub "\n\n".data message.data⟩

/-- The `errorType` values of `DdevValidationResult`
(src/shared/utils/ddev-utils.ts). -/
inductive ErrorType where
  | noWorkspace
  | noDdevProject
  | ddevNotRunning
  | toolNotFound
  | unknown
deriving DecidableEq, Repr

/-- `DdevValidationResult` (src/shared/utils/ddev-utils.ts). -/
structure DdevValidationResult where
  isValid : Bool
  errorType : Option ErrorType := none
  errorMessage : Option String := none
  userMessage : Option String := none
  userDetail : Option String := none
deriving DecidableEq, Repr

/-- `DdevUtils.getComposerPackageName` (src/shared/utils/ddev-utils.ts). -/
def getComposerPackageName (toolName : String) : String :=
  match toolName with
  | "phpmd" => "phpmd/phpmd"
  | "phpcs" => "squizlabs/php_codesniffer"
  | "phpstan" => "phpstan/phpstan"
  | _ => toolName ++ "/" ++ toolName

/-- The externally observed environment `DdevUtils.validateDdevTool` probes:
whether `test -f .ddev/config.yaml` finds the project marker, whether
`ddev exec <tool> --version` succeeds, and the error message the failed
re-run captures (`execError.message || execError.stderr || ''`). -/
structure DdevEnv where
  hasDdevProject : Bool
  toolVersionOk : Bool
  toolVersionError : String
deriving DecidableEq, Repr

/-- `DdevUtils.validateDdevTool` (src/shared/utils/ddev-utils.ts): no marker
file → `no-ddev-project`; else run `<tool> --version`; on failure classify the
captured message — not-running phrases → `ddev-not-running`, not-found phrases
→ `tool-not-found`, anything else → `unknown` with the message truncated at
the first double newline; success → valid. -/
def validateDdevTool (toolName : String) (env : DdevEnv) : DdevValidationResult :=
  if !env.hasDdevProject then
    { isValid := false
      errorType := some .noDdevProject
      userMessage := some "No DDEV project found"
      userDetail := some ("This extension requires a DDEV project. " ++
        "Please make sure you are in a DDEV project directory with a .ddev/config.yaml file.") }
  else if env.toolVersionOk then
    { isValid := true }
  else
    let errorMessage := env.toolVersionError
    if jsIncludes errorMessage "Project is not currently running" ||
        jsIncludes errorMessage "ddev start" then
      { isValid := false
        errorType := some .ddevNotRunning
        errorMessage := some errorMessage
        userMessage := some "DDEV is not running"
        userDetail := some ("This extension requires DDEV to be running. " ++
          "Please start DDEV by running:\n\nddev start") }
    else if jsIncludes errorMessage (toolName ++ ": not found") ||
        jsIncludes errorMessage "command not found" then
      { isValid := false
        errorType := some .toolNotFound
        errorMessage := some errorMessage
        userMessage := some (toolName.toUpper ++ " is not installed")
        userDetail := some ("This extension requires " ++ toolName.toUpper ++
          " to be installed in your DDEV container. " ++
          "Please install it by running:\n\nddev exec composer require --dev " ++
          getComposerPackageName toolName ++ "\n\n" ++
          "The extension will be disabled until the tool is installed.") }
    else
      { isValid := false
        errorType := some .unknown
        errorMessage := some errorMessage
        userMessage := some ("Unable to verify " ++ toolName.toUpper ++ " installation")
        userDetail := some ("Error: " ++ truncAtDoubleNewline errorMessage) }

/-- The extension configuration `PhpmdConfig` (src/models/configuration.ts). -/
structure PhpmdConfig where
  enable : Bool
  validateOn : String
  rulesets : List String
  minSeverity : String
  configPath : String
deriving DecidableEq, Repr

/-- `PhpmdService.buildPhpmdCommand` (src/services/phpmd-service.ts): with a
truthy (non-empty) `configPath`, quote the file and the relativized config
path; otherwise join the rulesets with commas.  `asRelativePath` stands for
`vscode.workspace.asRelativePath`. -/
def buildPhpmdCommand (relativePath : String) (config : PhpmdConfig)
    (asRelativePath : String → String) : String :=
  if config.configPath ≠ "" then
    let configPath := asRelativePath config.configPath
    "phpmd \"" ++ relativePath ++ "\" json \"" ++ configPath ++ "\""
  else
    let rulesets := String.intercalate "," config.rulesets
    "phpmd \"" ++ relativePath ++ "\" json " ++ rulesets

/-- A `vscode.DiagnosticCollection`, as the per-URI map of currently published
diagnostics. -/
abbrev DiagnosticCollection := List (String × List Diagnostic)

/-- `diagnosticCollection.delete(uri)`: drop the entry for the URI. -/
def dcDelete (collection : DiagnosticCollection) (uri : String) : DiagnosticCollection :=
  collection.filter (fun entry => entry.1 ≠ uri)

/-- `diagnosticCollection.set(uri, diagnostics)`. -/
def dcSet (collection : DiagnosticCollection) (uri : String)
    (diagnostics : List Diagnostic) : DiagnosticCollection :=
  dcDelete collection uri ++ [(uri, diagnostics)]

/-- The outcome of one `analyzeFile` call: the resulting diagnostic
collection, and whether the remote tool command was actually executed. -/
structure AnalyzeOutcome where
  collection : DiagnosticCollection
  remoteExecuted : Bool

/-- `BasePhpToolService.analyzeFile`
(src/shared/services/base-php-tool-service.ts) with the PHPMD output
processing of `PhpmdService.processPhpmdOutput`: bail out if disabled or not
PHP; delete the document's diagnostics; bail out without a workspace folder;
run the validator and bail out when it is invalid; only then execute the
remote command, parse its output (`parse` stands for `JSON.parse`, `none`
meaning it throws) and set the new diagnostics when non-empty. -/
def analyzeFile (config : PhpmdConfig) (languageId : String) (uri : String)
    (hasWorkspaceFolder : Bool) (validation : DdevValidationResult)
    (spawned : ProcResult) (parse : String → Option PhpmdResult)
    (collection : DiagnosticCollection) : AnalyzeOutcome :=
  if !config.enable || languageId ≠ "php" then
    ⟨collection, false⟩
  else
    let cleared := dcDelete collection uri
    if !hasWorkspaceFolder then ⟨cleared, false⟩
    else if !validation.isValid then ⟨cleared, false⟩
    else
      match execDdev spawned with
      | .error _ => ⟨cleared, true⟩
      | .ok output =>
          match parse output with
          | none => ⟨cleared, true⟩
          | some result =>
              let diagnostics := processPhpmdOutput result config.minSeverity
              if diagnostics.isEmpty then ⟨cleared, true⟩
              else ⟨dcSet cleared uri diagnostics, true⟩

/-- The display fields `updateStatusBar` assigns to the status bar item. -/
structure StatusBarView where
  text : String
  tooltip : String
  command : String
  color : String
deriving DecidableEq, Repr

/-- The view of the disabled branch of `updateStatusBar` (src/extension.ts). -/
def disabledView : StatusBarView :=
  ⟨"$(circle-slash) PHPMD", "PHPMD is disabled. Click to enable.",
    "ddev-phpmd.enable", "statusBarItem.warningForeground"⟩

/-- The view of the has-issues branch of `updateStatusBar` (src/extension.ts). -/
def hasIssuesView : StatusBarView :=
  ⟨"$(error) PHPMD", "PHPMD found issues in current file. Click to analyze again.",
    "ddev-phpmd.analyzeCurrentFile", "statusBarItem.errorForeground"⟩

/-- The view of the clean branch of `updateStatusBar` (src/extension.ts). -/
def cleanView : StatusBarView :=
  ⟨"$(check) PHPMD", "PHPMD is active. Click to analyze current file.",
    "ddev-phpmd.analyzeCurrentFile", "statusBarItem.prominentForeground"⟩

/-- `updateStatusBar` (src/extension.ts): reads only `config.enable` and the
module-level `currentFileHasIssues` flag — disabled, has-issues, or clean. -/
def updateStatusBar (enable : Bool) (currentFileHasIssues : Bool) : StatusBarView :=
  if !enable then
    { text := "$(circle-slash) PHPMD"
      tooltip := "PHPMD is disabled. Click to enable."
      command := "ddev-phpmd.enable"
      color := "statusBarItem.warningForeground" }
  else if currentFileHasIssues then
    { text := "$(error) PHPMD"
      tooltip := "PHPMD found issues in current file. Click to analyze again."
      command := "ddev-phpmd.analyzeCurrentFile"
      color := "statusBarItem.errorForeground" }
  else
    { text := "$(check) PHPMD"
      tooltip := "PHPMD is active. Click to analyze current file."
      command := "ddev-phpmd.analyzeCurrentFile"
      color := "statusBarItem.prominentForeground" }

/-- C1: `execDdev` returns the spawned process's stdout whenever that stdout
is non-empty — on a clean exit and on a thrown error alike — and it fails
with the thrown execution error (carrying its stderr and exit information)
only when the process produced no stdout at all. -/
theorem execDdev_stdout_policy (spawned : ProcResult) :
    (spawned.stdoutOf ≠ "" → execDdev spawned = .ok spawned.stdoutOf) ∧
    (∀ e : ExecError, execDdev spawned = .error e → spawned = .err e ∧ e.stdout = "") := by
  constructor
  · intro h
    cases spawned with
    | ok s => rfl
    | err e =>
        simp only [ProcResult.stdoutOf] at h ⊢
        simp [execDdev, h]
  · intro e he
    cases spawned with
    | ok s => simp [execDdev] at he
    | err e' =>
        by_cases h : e'.stdout = ""
        · simp [execDdev, h] at he
          subst he
          exact ⟨rfl, h⟩
        · simp [execDdev, h] at he

/-- Witness for C1: a process that exited with code 2 but printed output has
that output returned, not an error. -/
theorem execDdev_stdout_policy_witness :
    execDdev (.err ⟨"violations-json", "phpmd exit", 2⟩) = .ok "violations-json" :=
  (execDdev_stdout_policy (.err ⟨"violations-json", "phpmd exit", 2⟩)).1 (by decide)

/-- C2: the priority-to-severity mapping is total (a function on all
integers), fixed — 1 ↦ Error, 2 and 3 ↦ Warning, 4 and 5 ↦ Information,
anything outside 1..5 ↦ Warning — and monotonic on 1..5. -/
theorem getSeverity_total_fixed_monotonic :
    getSeverity 1 = .Error ∧ getSeverity 2 = .Warning ∧ getSeverity 3 = .Warning ∧
    getSeverity 4 = .Information ∧ getSeverity 5 = .Information ∧
    (∀ p : Int, p < 1 ∨ 5 < p → getSeverity p = .Warning) ∧
    (∀ p q : Int, 1 ≤ p → p ≤ q → q ≤ 5 →
      (getSeverity p).value ≤ (getSeverity q).value) := by
  refine ⟨rfl, rfl, rfl, rfl, rfl, ?_, ?_⟩
  · intro p h
    rcases h with h | h <;>
      · unfold getSeverity
        repeat' split
        all_goals first | rfl | (exfalso; omega)
  · intro p q hp hpq hq
    have hp5 : p ≤ 5 := le_trans hpq hq
    have hq1 : 1 ≤ q := le_trans hp hpq
    interval_cases p <;> interval_cases q <;> decide

/-- Witness for C2: an out-of-range priority still maps to Warning, and the
mapping is monotone between priorities 2 and 5. -/
theorem getSeverity_total_fixed_monotonic_witness :
    getSeverity 7 = .Warning ∧ (getSeverity 2).value ≤ (getSeverity 5).value :=
  ⟨getSeverity_total_fixed_monotonic.2.2.2.2.2.1 7 (by decide),
   getSeverity_total_fixed_monotonic.2.2.2.2.2.2 2 5 (by decide) (by decide) (by decide)⟩

/-- C3: over minSeverity ∈ \x7berror, warning, info\x7d and severity ∈
\x7bError, Warning, Information\x7d the filter is a superset relation: info
accepts all three, warning accepts exactly Error and Warning, error accepts
exactly Error. -/
theorem shouldReportSeverity_superset :
    shouldReportSeverity .Error "info" = true ∧
    shouldReportSeverity .Warning "info" = true ∧
    shouldReportSeverity .Information "info" = true ∧
    shouldReportSeverity .Error "warning" = true ∧
    shouldReportSeverity .Warning "warning" = true ∧
    shouldReportSeverity .Information "warning" = false ∧
    shouldReportSeverity .Error "error" = true ∧
    shouldReportSeverity .Warning "error" = false ∧
    shouldReportSeverity .Information "error" = false := by
  decide

/-- C10: for any minimum-severity string outside \x7berror, warning, info\x7d
the filter's default branch reports every severity. -/
theorem shouldReportSeverity_default_fail_open (severity : DiagnosticSeverity)
    (minSeverity : String)
    (h : minSeverity ≠ "error" ∧ minSeverity ≠ "warning" ∧ minSeverity ≠ "info") :
    shouldReportSeverity severity minSeverity = true := by
  obtain ⟨h1, h2, h3⟩ := h
  unfold shouldReportSeverity
  split <;> simp_all

/-- Witness for C10: the unrecognized setting string "strict" reports even an
Information-level finding. -/
theorem shouldReportSeverity_default_fail_open_witness :
    shouldReportSeverity .Information "strict" = true :=
  shouldReportSeverity_default_fail_open .Information "strict" (by decide)

/-- A push-if loop over a list accumulates exactly the filtered, mapped
elements, in order. -/
theorem foldl_push_if_eq_filter_map {α β : Type} (p : α → Bool) (f : α → β)
    (xs : List α) (acc : List β) :
    xs.foldl (fun acc x => if p x then acc ++ [f x] else acc) acc
      = acc ++ (xs.filter p).map f := by
  induction xs generalizing acc with
  | nil => simp
  | cons x xs ih =>
      by_cases h : p x <;> simp [h, ih]

/-- The nested file/violation loop of `processPhpmdOutput` accumulates, per
file in order, the diagnostics of the violations that pass the filter. -/
theorem files_foldl_eq (minSeverity : String) (files : List PhpmdFileResult)
    (acc : List Diagnostic) :
    files.foldl
      (fun diagnostics file =>
        file.violations.foldl
          (fun diagnostics violation =>
            let severity := getSeverity violation.priority
            if shouldReportSeverity severity minSeverity then
              diagnostics ++ [createDiagnostic violation]
            else
              diagnostics)
          diagnostics) acc
      = acc ++ files.flatMap (fun file =>
          (file.violations.filter
            (fun v => shouldReportSeverity (getSeverity v.priority) minSeverity)).map
            createDiagnostic) := by
  induction files generalizing acc with
  | nil => simp
  | cons f fs ih =>
      rw [List.foldl_cons, ih]
      simp only [foldl_push_if_eq_filter_map, List.flatMap_cons, List.append_assoc]

/-- C4: translation yields one diagnostic per violation passing the severity
filter, in input order (the imperative loop equals the declarative
filter-then-map, file by file); each diagnostic spans its zero-based line
`beginLine - 1` from column 0 to `Number.MAX_VALUE`; and concretely,
violations at 1-based lines 10 and 20 produce diagnostics starting at
zero-based lines 9 and 19, in that order. -/
theorem processPhpmdOutput_translation :
    (∀ (result : PhpmdResult) (minSeverity : String),
      processPhpmdOutput result minSeverity
        = result.files.flatMap (fun file =>
            (file.violations.filter
              (fun v => shouldReportSeverity (getSeverity v.priority) minSeverity)).map
              createDiagnostic)) ∧
    (∀ violation : PhpmdViolation,
      (createDiagnostic violation).range.start.line = violation.beginLine - 1 ∧
      (createDiagnostic violation).range.start.character = 0 ∧
      (createDiagnostic violation).range.stop.line = violation.beginLine - 1 ∧
      (createDiagnostic violation).range.stop.character = numberMaxValue) ∧
    ((processPhpmdOutput
        ⟨[⟨"Test.php",
           [{ beginLine := 10, endLine := 10, beginColumn := 1, endColumn := 5,
              description := "Avoid variables with short names like $q",
              rule := "ShortVariable", ruleSet := "Naming Rules",
              priority := 1, externalInfoUrl := none },
            { beginLine := 20, endLine := 20, beginColumn := 1, endColumn := 5,
              description := "The method foo has 12 parameters",
              rule := "ExcessiveParameterList", ruleSet := "Code Size Rules",
              priority := 3, externalInfoUrl := none }]⟩]⟩ "info").map
        (fun d => d.range.start.line) = [9, 19]) := by
  refine ⟨?_, ?_, ?_⟩
  · intro result minSeverity
    unfold processPhpmdOutput
    split
    · next h =>
        rw [List.isEmpty_iff.mp h]
        simp
    · rw [files_foldl_eq]
      simp
  · intro violation
    exact ⟨rfl, rfl, rfl, rfl⟩
  · rfl

/-- C5: `validateDdevTool` checks in order and short-circuits on the first
failure — no project marker file yields `no-ddev-project` regardless of
anything else; with a marker, a successful `<tool> --version` yields a valid
result with no failure kind; a failed invocation is classified by its error
text: container-not-running phrases yield `ddev-not-running`, not-found
phrases yield `tool-not-found`, and anything else yields `unknown`, carrying
the raw error message and its truncation at the first double newline. -/
theorem validateDdevTool_order_classification (toolName : String) (env : DdevEnv) :
    (env.hasDdevProject = false →
      (validateDdevTool toolName env).isValid = false ∧
      (validateDdevTool toolName env).errorType = some .noDdevProject) ∧
    (env.hasDdevProject = true → env.toolVersionOk = true →
      (validateDdevTool toolName env).isValid = true ∧
      (validateDdevTool toolName env).errorType = none) ∧
    (env.hasDdevProject = true → env.toolVersionOk = false →
      (jsIncludes env.toolVersionError "Project is not currently running" ||
        jsIncludes env.toolVersionError "ddev start") = true →
      (validateDdevTool toolName env).isValid = false ∧
      (validateDdevTool toolName env).errorType = some .ddevNotRunning ∧
      (validateDdevTool toolName env).errorMessage = some env.toolVersionError) ∧
    (env.hasDdevProject = true → env.toolVersionOk = false →
      (jsIncludes env.toolVersionError "Project is not currently running" ||
        jsIncludes env.toolVersionError "ddev start") = false →
      (jsIncludes env.toolVersionError (toolName ++ ": not found") ||
        jsIncludes env.toolVersionError "command not found") = true →
      (validateDdevTool toolName env).isValid = false ∧
      (validateDdevTool toolName env).errorType = some .toolNotFound ∧
      (validateDdevTool toolName env).errorMessage = some env.toolVersionError) ∧
    (env.hasDdevProject = true → env.toolVersionOk = false →
      (jsIncludes env.toolVersionError "Project is not currently running" ||
        jsIncludes env.toolVersionError "ddev start") = false →
      (jsIncludes env.toolVersionError (toolName ++ ": not found") ||
        jsIncludes env.toolVersionError "command not found") = false →
      (validateDdevTool toolName env).isValid = false ∧
      (validateDdevTool toolName env).errorType = some .unknown ∧
      (validateDdevTool toolName env).errorMessage = some env.toolVersionError ∧
      (validateDdevTool toolName env).userDetail
        = some ("Error: " ++ truncAtDoubleNewline env.toolVersionError)) := by
  obtain ⟨hasProject, versionOk, versionError⟩ := env
  refine ⟨fun h1 => ?_, fun h1 h2 => ?_, fun h1 h2 h3 => ?_,
    fun h1 h2 h3 h4 => ?_, fun h1 h2 h3 h4 => ?_⟩ <;>
      simp_all [validateDdevTool]

/-- Witness for C5: with a project marker present, a failing version probe
whose message reads `bash: line 1: phpmd: not found` is classified as
`tool-not-found`, carrying that message. -/
theorem validateDdevTool_order_classification_witness :
    (validateDdevTool "phpmd" ⟨true, false, "bash: line 1: phpmd: not found"⟩).isValid
      = false ∧
    (validateDdevTool "phpmd" ⟨true, false, "bash: line 1: phpmd: not found"⟩).errorType
      = some .toolNotFound ∧
    (validateDdevTool "phpmd" ⟨true, false, "bash: line 1: phpmd: not found"⟩).errorMessage
      = some "bash: line 1: phpmd: not found" :=
  (validateDdevTool_order_classification "phpmd"
      ⟨true, false, "bash: line 1: phpmd: not found"⟩).2.2.2.1
    rfl rfl (by decide) (by decide)

/-- C6: the command builder produces exactly one of two forms — with a custom
config path set it takes precedence (the rulesets are ignored entirely) and
the tool is invoked on the quoted file with JSON output and the quoted config
file; otherwise the configured rulesets are joined with commas as the ruleset
argument. -/
theorem buildPhpmdCommand_exclusive (relativePath : String) (config : PhpmdConfig)
    (asRelativePath : String → String) :
    (config.configPath ≠ "" →
      buildPhpmdCommand relativePath config asRelativePath
        = "phpmd \"" ++ relativePath ++ "\" json \"" ++
            asRelativePath config.configPath ++ "\"" ∧
      ∀ otherRulesets : List String,
        buildPhpmdCommand relativePath { config with rulesets := otherRulesets }
            asRelativePath
          = buildPhpmdCommand relativePath config asRelativePath) ∧
    (config.configPath = "" →
      buildPhpmdCommand relativePath config asRelativePath
        = "phpmd \"" ++ relativePath ++ "\" json " ++
            String.intercalate "," config.rulesets) := by
  constructor
  · intro h
    exact ⟨by simp [buildPhpmdCommand, h], fun otherRulesets => by simp [buildPhpmdCommand, h]⟩
  · intro h
    simp [buildPhpmdCommand, h]

/-- Witness for C6: with a custom config path the built command quotes the
file and the config file; with none, the rulesets are joined with commas. -/
theorem buildPhpmdCommand_exclusive_witness :
    buildPhpmdCommand "src/A.php" ⟨true, "save", ["cleancode", "codesize"], "warning", "phpmd.xml"⟩ id
      = "phpmd \"src/A.php\" json \"phpmd.xml\"" ∧
    buildPhpmdCommand "src/A.php" ⟨true, "save", ["cleancode", "codesize"], "warning", ""⟩ id
      = "phpmd \"src/A.php\" json cleancode,codesize" :=
  ⟨((buildPhpmdCommand_exclusive "src/A.php"
      ⟨true, "save", ["cleancode", "codesize"], "warning", "phpmd.xml"⟩ id).1 (by decide)).1,
   (buildPhpmdCommand_exclusive "src/A.php"
      ⟨true, "save", ["cleancode", "codesize"], "warning", ""⟩ id).2 rfl⟩

/-- A sample violation used as a previously published diagnostic. -/
def sampleViolation : PhpmdViolation :=
  { beginLine := 10, endLine := 10, beginColumn := 1, endColumn := 2,
    description := "Avoid unused local variables such as $x"
    rule := "UnusedLocalVariable", ruleSet := "Unused Code Rules"
    priority := 3, externalInfoUrl := none }

/-- A diagnostic collection that already holds a diagnostic for the document
`src/A.php` before the analysis attempt. -/
def priorCollection : DiagnosticCollection :=
  [("src/A.php", [createDiagnostic sampleViolation])]

/-- The validation result for a `phpmd: not found` probe failure. -/
def toolMissingValidation : DdevValidationResult :=
  validateDdevTool "phpmd" ⟨true, false, "bash: line 1: phpmd: not found"⟩

/-- An enabled configuration with default-like settings. -/
def enabledConfig : PhpmdConfig :=
  ⟨true, "save", ["cleancode"], "warning", ""⟩

/-- C7, counterexample: when the validator reports the tool missing, the
attempt does short-circuit before any remote execution — but the document's
previously published diagnostics are NOT unchanged: `analyzeFile` deletes
them from the collection before it runs the validator, so the prior
diagnostic for `src/A.php` is gone afterwards. -/
theorem analyzeFile_invalid_validation_counterexample :
    (analyzeFile enabledConfig "php" "src/A.php" true toolMissingValidation
        (.ok "") (fun _ => none) priorCollection).remoteExecuted = false ∧
    (analyzeFile enabledConfig "php" "src/A.php" true toolMissingValidation
        (.ok "") (fun _ => none) priorCollection).collection = [] ∧
    priorCollection ≠ [] := by
  refine ⟨rfl, rfl, by decide⟩

/-- C7 as amended: when the tool is enabled, the document is PHP with a
workspace folder, and validation fails, `analyzeFile` performs no remote
execution and returns the incoming collection with that document's entry
deleted (cleared), rather than unchanged. -/
theorem analyzeFile_invalid_validation_shortcircuit
    (config : PhpmdConfig) (uri : String) (validation : DdevValidationResult)
    (spawned : ProcResult) (parse : String → Option PhpmdResult)
    (collection : DiagnosticCollection)
    (hEnable : config.enable = true) (hValid : validation.isValid = false) :
    analyzeFile config "php" uri true validation spawned parse collection
      = ⟨dcDelete collection uri, false⟩ := by
  simp [analyzeFile, hEnable, hValid]

/-- Witness for amended C7: at the tool-missing validation and the prior
collection, the outcome is the emptied collection with no remote execution. -/
theorem analyzeFile_invalid_validation_shortcircuit_witness :
    analyzeFile enabledConfig "php" "src/A.php" true toolMissingValidation
        (.ok "") (fun _ => none) priorCollection
      = ⟨[], false⟩ :=
  (analyzeFile_invalid_validation_shortcircuit enabledConfig "src/A.php"
      toolMissingValidation (.ok "") (fun _ => none) priorCollection rfl
      (by decide)).trans rfl

/-- C8: the command builder does not escape double quotes embedded in the
file path (or rulesets): a relative path containing `"` terminates the quoted
field early, so the rest of the path sits outside the quotes in the shell
command handed to `execSync` — the shell-quoting requirement fails, while the
working directory is indeed the workspace path. -/
theorem buildPhpmdCommand_unescaped_quote :
    buildPhpmdCommand "evil\".php" ⟨true, "save", ["cleancode"], "warning", ""⟩ id
      = "phpmd \"evil\".php\" json cleancode" ∧
    execDdevRequest
        (buildPhpmdCommand "evil\".php" ⟨true, "save", ["cleancode"], "warning", ""⟩ id)
        "/work/space"
      = ⟨"ddev exec phpmd \"evil\".php\" json cleancode", "/work/space"⟩ := by
  constructor <;> rfl

/-- C9, counterexample: `updateStatusBar` reads only the enabled flag and the
current-file-has-issues flag; enumerating all four inputs yields exactly the
three views disabled / has-issues / clean.  There is no fourth Unavailable
state, and when the tool is enabled with no recorded issues the clean
"$(check) PHPMD" view is shown regardless of whether the last validation
succeeded — the validation result is not an input of the function at all. -/
theorem updateStatusBar_counterexample :
    updateStatusBar false false = disabledView ∧
    updateStatusBar false true = disabledView ∧
    updateStatusBar true true = hasIssuesView ∧
    updateStatusBar true false = cleanView ∧
    cleanView.text = "$(check) PHPMD" ∧
    disabledView ≠ hasIssuesView ∧ disabledView ≠ cleanView ∧
    hasIssuesView ≠ cleanView := by
  refine ⟨rfl, rfl, rfl, rfl, rfl, by decide, by decide, by decide⟩

/-- C9 as amended: the status indicator is a pure function of the pair
(enabled, currentDocumentHasIssues) with three pairwise distinct states —
not enabled yields the disabled view, enabled with issues yields the
has-issues view, and enabled without issues yields the clean view; the last
validation result plays no role. -/
theorem updateStatusBar_three_state_table (enable currentFileHasIssues : Bool) :
    (updateStatusBar enable currentFileHasIssues
      = if !enable then disabledView
        else if currentFileHasIssues then hasIssuesView
        else cleanView) ∧
    disabledView ≠ hasIssuesView ∧ disabledView ≠ cleanView ∧
    hasIssuesView ≠ cleanView := by
  refine ⟨?_, by decide, by decide, by decide⟩
  cases enable <;> cases currentFileHasIssues <;> rfl

end DdevPhpmd
